import Mathlib

/-!
Verification of the resale-flat dashboard pipeline (src/streamlit_app.py).

Modelling conventions (shallow embedding):
* pandas floats are modelled as rationals (`ℚ`); machine integers as `ℤ`/`ℕ`.
  Division on `ℚ` is total with `x / 0 = 0`; where the Python code would
  produce IEEE `inf` (float division by zero) the model notes this in place.
* A transaction row is the record of the columns the in-scope pipeline reads.
* Subset-wide medians appear as explicit parameters of the per-row scoring
  functions, exactly as the Python closures capture `filtered[...].median()`
  and `median_psqm`.
-/

/-- One resale transaction, restricted to the columns the scoring pipeline
reads (`storey_floor`, `floor_area_sqm`, `price_per_sqm`,
`remaining_lease_years`, `resale_price`). -/
structure Row where
  storey_floor : ℤ
  floor_area_sqm : ℚ
  price_per_sqm : ℚ
  remaining_lease_years : ℤ
  resale_price : ℚ
deriving DecidableEq, Repr

/-- pandas `Series.median`: sort ascending; odd length takes the middle
element, even length averages the two middle elements.  (pandas returns NaN
on an empty series; the model returns `0` there — the pipeline only takes
medians of non-empty subsets.) -/
def median (l : List ℚ) : ℚ :=
  let s := l.insertionSort (· ≤ ·)
  let n := s.length
  if n % 2 = 1 then s.getD (n / 2) 0
  else (s.getD (n / 2 - 1) 0 + s.getD (n / 2) 0) / 2

/-- `calculate_value_score` (src/streamlit_app.py:199-208), with the two
subset medians (`filtered['floor_area_sqm'].median()` and `median_psqm`)
passed explicitly.  Returns `max(min(score, 100), 0)`. -/
def calculate_value_score (medArea medPsqm : ℚ) (row : Row) : ℚ :=
  let score : ℚ := 50
  let score := if row.storey_floor > 20 then score + 5
               else if row.storey_floor ≥ 10 then score + 3 else score
  let score := if row.floor_area_sqm > medArea then score + 5 else score
  let score := if row.price_per_sqm < medPsqm then score + 15
               else score - 15 * ((row.price_per_sqm - medPsqm) / medPsqm)
  let score := if row.remaining_lease_years < 60 then score - 25
               else if row.remaining_lease_years < 80 then score - 10 else score
  max (min score 100) 0

/-- `explain_score` (src/streamlit_app.py:210-217): collects reason strings in
the code's order and joins them with `", ".join(reasons)`. -/
def explain_score (medArea medPsqm : ℚ) (row : Row) : String :=
  let reasons : List String := []
  let reasons := if row.storey_floor > 20 then reasons ++ ["High floor"]
                 else if row.storey_floor ≥ 10 then reasons ++ ["Mid floor"] else reasons
  let reasons := if row.floor_area_sqm > medArea then reasons ++ ["Spacious"] else reasons
  let reasons := if row.remaining_lease_years < 60 then reasons ++ ["Low remaining lease"] else reasons
  let reasons := if row.price_per_sqm < medPsqm then reasons ++ ["Good value $/sqm"] else reasons
  String.intercalate ", " reasons

/-- Spec §4.4 step 1 (floor bonus), as the spec decomposes the score. -/
def floor_bonus (row : Row) : ℚ :=
  if row.storey_floor > 20 then 5 else if row.storey_floor ≥ 10 then 3 else 0

/-- Spec §4.4 step 2 (area bonus). -/
def area_bonus (medArea : ℚ) (row : Row) : ℚ :=
  if row.floor_area_sqm > medArea then 5 else 0

/-- Spec §4.4 step 3 (value adjustment: +15 below median, proportional
penalty at or above it). -/
def value_adjustment (medPsqm : ℚ) (row : Row) : ℚ :=
  if row.price_per_sqm < medPsqm then 15
  else -(15 * ((row.price_per_sqm - medPsqm) / medPsqm))

/-- Spec §4.4 step 4 (lease penalty). -/
def lease_penalty (row : Row) : ℚ :=
  if row.remaining_lease_years < 60 then -25
  else if row.remaining_lease_years < 80 then -10 else 0

/-- Spec §4.4 step 5: clamp to [0, 100], i.e. `max(min(x, 100), 0)`. -/
def clampScore (x : ℚ) : ℚ := max (min x 100) 0

/-- `pd.cut(filtered["storey_floor"], bins=[-1,9,20,100],
labels=["Low (<10)","Mid (10-20)","High (>20)"])` (src/streamlit_app.py:103).
`pd.cut` with `right=True` (the default) uses left-open right-closed
intervals, so the bins are (-1,9], (9,20], (20,100]; a value outside every
bin gets NaN, modelled as `none`. -/
def floor_category (s : ℤ) : Option String :=
  if -1 < s ∧ s ≤ 9 then some "Low (<10)"
  else if 9 < s ∧ s ≤ 20 then some "Mid (10-20)"
  else if 20 < s ∧ s ≤ 100 then some "High (>20)"
  else none

/-- `lease_bucket` (src/streamlit_app.py:104-107). -/
def lease_bucket (x : ℤ) : String :=
  if x ≥ 81 then "81-99 yrs"
  else if x ≥ 61 then "61-80 yrs"
  else "0-60 yrs"

/-- `filtered.sort_values("Potential Score", ascending=False)`
(src/streamlit_app.py:223).  pandas implements a descending sort by taking
the ascending argsort of the key column and reversing it
(`nargsort(..., ascending=False)`); numpy's argsort is stable on the small
arrays relevant here (its insertion-sort regime), so the model is a stable
ascending sort followed by a reverse.  For larger inputs numpy's quicksort
leaves the tie order unspecified; the sortedness and permutation facts
proved below hold for any sort kind. -/
def sort_values_desc (key : Row → ℚ) (l : List Row) : List Row :=
  (l.insertionSort fun a b => key a ≤ key b).reverse

/-- `top20 = filtered.sort_values("Potential Score",ascending=False).head(20)`
(src/streamlit_app.py:223), with the score column given by `key`. -/
def top20 (key : Row → ℚ) (l : List Row) : List Row :=
  (sort_values_desc key l).take 20

/-- Python `int(x)`: truncation toward zero. -/
def pyInt (q : ℚ) : ℤ := if 0 ≤ q then ⌊q⌋ else -⌊-q⌋

/-- Python `range(start, stop, step)` for a positive step: the elements
`start + step*i` for `0 ≤ i < ceil((stop-start)/step)`.  Lean's `ℤ`
division is floor division for a positive divisor, matching Python. -/
def pythonRange (start stop step : ℤ) : List ℤ :=
  (List.range ((stop - start + step - 1) / step).toNat).map
    fun i : ℕ => start + step * (i : ℤ)

/-- `floor_bins = range(int(filtered["floor_area_sqm"].min()),
int(filtered["floor_area_sqm"].max()) + 10, 10)` (src/streamlit_app.py:147),
as a function of the subset's minimum and maximum floor area. -/
def floor_bins (mn mx : ℚ) : List ℤ := pythonRange (pyInt mn) (pyInt mx + 10) 10

/-- `pd.cut(x, bins=edges)` with the default `right=True`: assign `x` to the
left-open right-closed interval between the consecutive edges that contains
it, `none` (NaN) if no interval does — pandas excludes a value equal to the
lowest edge (`include_lowest` is not set) and a value beyond the last edge. -/
def cutAssign (edges : List ℤ) (x : ℚ) : Option (ℤ × ℤ) :=
  match edges with
  | a :: b :: rest =>
      if (a:ℚ) < x ∧ x ≤ (b:ℚ) then some (a, b) else cutAssign (b :: rest) x
  | _ => none

/-- The `floor_bin` column (src/streamlit_app.py:148) for a row with floor
area `x`, given the subset's minimum and maximum floor area. -/
def floor_bin (mn mx x : ℚ) : Option (ℤ × ℤ) := cutAssign (floor_bins mn mx) x

/-- The arithmetic grid `a, a+10, ..., a+10k` (k+1 edges), used to analyse
`floor_bins`. -/
def chainEdges (a : ℤ) : ℕ → List ℤ
  | 0 => [a]
  | k + 1 => a :: chainEdges (a + 10) k

/-- Number of width-10 intervals produced by `floor_bins` (one less than the
number of edges). -/
def numIntervals (mn mx : ℚ) : ℕ := ((pyInt mx + 10 - pyInt mn + 9) / 10).toNat - 1

/-- src/streamlit_app.py:147 as a step on the subset's floor-area column:
`int(series.min())` / `int(series.max())`.  pandas `Series.min()` on an
empty series is NaN, and Python `int(NaN)` raises
`ValueError: cannot convert float NaN to integer`; the raised exception is
modelled as `Except.error`. -/
def floor_bins_step (areas : List ℚ) : Except String (List ℤ) :=
  match areas.min?, areas.max? with
  | some mn, some mx => Except.ok (floor_bins mn mx)
  | _, _ => Except.error "ValueError: cannot convert float NaN to integer"

/-- Value of a maximal run of digits, given the value read so far; stops at
the first non-digit. -/
def digitRunVal : ℕ → List Char → ℕ
  | acc, c :: cs => if c.isDigit then digitRunVal (10 * acc + (c.toNat - 48)) cs else acc
  | acc, [] => acc

/-- Scan for the first digit and read the maximal digit run from there. -/
def extractFirstInt : List Char → Option ℕ
  | c :: cs => if c.isDigit then some (digitRunVal (c.toNat - 48) cs) else extractFirstInt cs
  | [] => none

/-- `.str.extract(r'(\d+)')` followed by `.astype(int)`
(src/streamlit_app.py:14-15): the first maximal digit run of the string,
`none` when the string has no digit (pandas yields NaN there and
`.astype(int)` raises). -/
def extractNat (s : String) : Option ℕ := extractFirstInt s.toList

/-- A raw CSV record, restricted to the fields `load_data` transforms. -/
structure RawRecord where
  storey_range : String
  remaining_lease : String
  floor_area_sqm : ℚ
  resale_price : ℚ

/-- Per-record normalization of `load_data` (src/streamlit_app.py:11-17):
extract the leading integers of `storey_range` and `remaining_lease` and
compute `price_per_sqm = resale_price / floor_area_sqm`.  There is no
validation of `floor_area_sqm`; with area 0 pandas float division produces
`inf` (the `ℚ` model yields 0) — in neither case is the record rejected.
A failed extraction makes `.astype(int)` raise, modelled as `none`. -/
def load_record (r : RawRecord) : Option Row :=
  match extractNat r.storey_range, extractNat r.remaining_lease with
  | some storey, some lease =>
      some ⟨storey, r.floor_area_sqm, r.resale_price / r.floor_area_sqm, lease, r.resale_price⟩
  | _, _ => none

/-- Modelled from the spec (§7, division-by-zero guard) for comparison with
`load_record`: the loader the spec describes validates `floor_area_sqm > 0`
before computing `price_per_sqm` and rejects the record otherwise.  This
guard is absent from src/streamlit_app.py. -/
def load_record_spec (r : RawRecord) : Option Row :=
  if 0 < r.floor_area_sqm then load_record r else none

/-- A raw record with `floor_area_sqm = 0`. -/
def rawZeroArea : RawRecord := ⟨"10 TO 12", "61 years 04 months", 0, 500000⟩

/-- A well-formed raw record. -/
def rawSample : RawRecord := ⟨"10 TO 12", "61 years 04 months", 100, 500000⟩

/-- Round to the nearest integer, ties to even — the rounding used by
Python's fixed-point float formatting, transported to the `ℚ` model. -/
def round_half_even (q : ℚ) : ℤ :=
  let f := ⌊q⌋
  let r := q - f
  if r < 1/2 then f
  else if 1/2 < r then f + 1
  else if f % 2 = 0 then f else f + 1

/-- Python `f"{q:.2f}"` for a non-negative value in the `ℚ` model. -/
def twoDecimals (q : ℚ) : String :=
  let cents := (round_half_even (q * 100)).toNat
  toString (cents / 100) ++ "." ++
    (if cents % 100 < 10 then "0" ++ toString (cents % 100) else toString (cents % 100))

/-- Python `f"{q:.0f}"` for a non-negative value in the `ℚ` model. -/
def zeroDecimals (q : ℚ) : String := (round_half_even q).toNat.repr

/-- `format_price` (src/streamlit_app.py:24-28). -/
def format_price (value : ℚ) : String :=
  if value ≥ 1000000 then "$" ++ twoDecimals (value / 1000000) ++ "M"
  else "$" ++ zeroDecimals (value / 1000) ++ "k"

/-- `top20['resale_price'] = top20['resale_price'].apply(format_price)`
(src/streamlit_app.py:224): formatting decorates the already-ranked rows. -/
def top20_display (key : Row → ℚ) (l : List Row) : List (Row × String) :=
  (top20 key l).map fun r => (r, format_price r.resale_price)

/-- Row A of §8 scenario 9. -/
def rowA : Row := ⟨25, 120, 4000, 90, 480000⟩

/-- Row B of §8 scenario 9. -/
def rowB : Row := ⟨5, 60, 6000, 55, 360000⟩

/-- Two rows that receive equal scores (identical scoring fields) but are
distinct records (different `resale_price`). -/
def rowT0 : Row := ⟨5, 60, 6000, 90, 500000⟩

/-- See `rowT0`. -/
def rowT1 : Row := ⟨5, 60, 6000, 90, 600000⟩

/-- A row hitting none of the rationale conditions: low floor, area at or
below the median, price at or above the median, lease in [60, 80). -/
def rowLowQuiet : Row := ⟨5, 80, 5500, 70, 440000⟩

/-- C1: on the two-row subset of §8 scenario 9 the medians are 90 and 5000,
row A scores 75 with rationale "High floor, Spacious, Good value $/sqm",
row B scores 22 with rationale "Low remaining lease", and the ranking
selector returns A before B. -/
theorem scenario9_two_rows :
    median ([rowA, rowB].map Row.floor_area_sqm) = 90 ∧
    median ([rowA, rowB].map Row.price_per_sqm) = 5000 ∧
    calculate_value_score 90 5000 rowA = 75 ∧
    explain_score 90 5000 rowA = "High floor, Spacious, Good value $/sqm" ∧
    calculate_value_score 90 5000 rowB = 22 ∧
    explain_score 90 5000 rowB = "Low remaining lease" ∧
    top20 (calculate_value_score 90 5000) [rowA, rowB] = [rowA, rowB] := by
  have hA : calculate_value_score 90 5000 rowA = 75 := by
    norm_num [calculate_value_score, rowA, max_def, min_def]
  have hB : calculate_value_score 90 5000 rowB = 22 := by
    norm_num [calculate_value_score, rowB, max_def, min_def]
  refine ⟨?_, ?_, hA, ?_, hB, ?_, ?_⟩
  · norm_num [median, rowA, rowB, List.insertionSort, List.orderedInsert]
  · norm_num [median, rowA, rowB, List.insertionSort, List.orderedInsert]
  · norm_num [explain_score, rowA]
    rfl
  · norm_num [explain_score, rowB]
    rfl
  · simp only [top20, sort_values_desc, List.insertionSort, List.orderedInsert]
    norm_num [hA, hB]

/-- C2: for every pair of subset medians and every row, the score lies in
[0, 100] and equals the clamp of (base 50 + floor bonus + area bonus +
value adjustment + lease penalty). -/
theorem score_in_bounds_and_is_clamped_sum (medArea medPsqm : ℚ) (row : Row) :
    0 ≤ calculate_value_score medArea medPsqm row ∧
    calculate_value_score medArea medPsqm row ≤ 100 ∧
    calculate_value_score medArea medPsqm row =
      clampScore (50 + floor_bonus row + area_bonus medArea row +
        value_adjustment medPsqm row + lease_penalty row) := by
  unfold calculate_value_score clampScore floor_bonus area_bonus value_adjustment lease_penalty
  refine ⟨le_max_right _ _, max_le (min_le_right _ _) (by norm_num), ?_⟩
  split_ifs <;> ring_nf

/-- C3 counterexample: two distinct rows with equal score come out of the
ranking in reversed input order, so the relative order of equal-score rows
is not preserved. -/
theorem top20_tie_order_reversed :
    rowT0 ≠ rowT1 ∧
    calculate_value_score 90 5000 rowT0 = calculate_value_score 90 5000 rowT1 ∧
    top20 (calculate_value_score 90 5000) [rowT0, rowT1] = [rowT1, rowT0] := by
  have h0 : calculate_value_score 90 5000 rowT0 = 47 := by
    norm_num [calculate_value_score, rowT0, max_def, min_def]
  have h1 : calculate_value_score 90 5000 rowT1 = 47 := by
    norm_num [calculate_value_score, rowT1, max_def, min_def]
  refine ⟨by norm_num [rowT0, rowT1, Row.mk.injEq], by rw [h0, h1], ?_⟩
  simp only [top20, sort_values_desc, List.insertionSort, List.orderedInsert]
  norm_num [h0, h1]

/-- C3 amended: the ranking selector sorts by score descending and truncates
to at most 20 rows (all rows are returned, as a permutation, when fewer than
20 exist), but the sort is not stable: pandas reverses an ascending argsort,
so equal-score rows appear in reversed input order (see
`top20_tie_order_reversed`). -/
theorem top20_sorted_and_truncated (key : Row → ℚ) (l : List Row) :
    List.Pairwise (fun a b => key b ≤ key a) (top20 key l) ∧
    (top20 key l).length = min 20 l.length ∧
    (l.length ≤ 20 → (top20 key l).Perm l) := by
  haveI : IsTotal Row (fun a b => key a ≤ key b) := ⟨fun a b => le_total _ _⟩
  haveI : IsTrans Row (fun a b => key a ≤ key b) := ⟨fun a b c => le_trans⟩
  have hs := List.sorted_insertionSort (fun a b => key a ≤ key b) l
  refine ⟨?_, ?_, fun h => ?_⟩
  · have hrev : List.Pairwise (fun a b => key b ≤ key a)
        (sort_values_desc key l) := by
      unfold sort_values_desc
      exact List.pairwise_reverse.2 hs
    exact List.Pairwise.sublist (List.take_sublist _ _) hrev
  · simp [top20, sort_values_desc]
  · unfold top20 sort_values_desc
    rw [List.take_of_length_le (by simpa using h)]
    exact ((l.insertionSort fun a b => key a ≤ key b).reverse_perm).trans
      (List.perm_insertionSort _ l)

/-- Witness for `top20_sorted_and_truncated` at a concrete two-row input. -/
theorem top20_sorted_and_truncated_witness :
    ([rowA, rowB].length ≤ 20) ∧
    (top20 (calculate_value_score 90 5000) [rowA, rowB]).Perm [rowA, rowB] :=
  ⟨by simp, (top20_sorted_and_truncated (calculate_value_score 90 5000)
    [rowA, rowB]).2.2 (by simp)⟩

/-- C4 counterexample: storey_floor = 101 is non-negative yet receives no
floor category (`pd.cut` yields NaN above the hard-coded top edge 100). -/
theorem floor_category_101_unassigned :
    (0 : ℤ) ≤ 101 ∧ floor_category 101 = none :=
  ⟨by norm_num, by decide⟩

/-- C4 amended: for 0 ≤ storey_floor ≤ 100 the category is exactly one of
the three, with ≤9 low, 10-20 mid, >20 high; above 100 no category is
assigned (see `floor_category_101_unassigned`). -/
theorem floor_category_piecewise (s : ℤ) (h0 : 0 ≤ s) (h1 : s ≤ 100) :
    (floor_category s = some "Low (<10)" ↔ s ≤ 9) ∧
    (floor_category s = some "Mid (10-20)" ↔ 10 ≤ s ∧ s ≤ 20) ∧
    (floor_category s = some "High (>20)" ↔ 20 < s) := by
  unfold floor_category
  split_ifs <;> simp_all <;> omega

/-- Witness for `floor_category_piecewise` at storey_floor = 15. -/
theorem floor_category_piecewise_witness :
    ((0 : ℤ) ≤ 15 ∧ (15 : ℤ) ≤ 100) ∧
    ((floor_category 15 = some "Low (<10)" ↔ (15 : ℤ) ≤ 9) ∧
     (floor_category 15 = some "Mid (10-20)" ↔ 10 ≤ (15 : ℤ) ∧ (15 : ℤ) ≤ 20) ∧
     (floor_category 15 = some "High (>20)" ↔ 20 < (15 : ℤ))) :=
  ⟨⟨by norm_num, by norm_num⟩, floor_category_piecewise 15 (by norm_num) (by norm_num)⟩

/-- C5: for every non-negative remaining_lease_years the bucket is exactly
one of the three (characterized by the documented thresholds), and the
boundary values 60/61/80/81 land in the documented buckets. -/
theorem lease_bucket_piecewise (x : ℤ) (h : 0 ≤ x) :
    ((lease_bucket x = "0-60 yrs" ↔ x ≤ 60) ∧
     (lease_bucket x = "61-80 yrs" ↔ 61 ≤ x ∧ x ≤ 80) ∧
     (lease_bucket x = "81-99 yrs" ↔ 81 ≤ x)) ∧
    lease_bucket 60 = "0-60 yrs" ∧ lease_bucket 61 = "61-80 yrs" ∧
    lease_bucket 80 = "61-80 yrs" ∧ lease_bucket 81 = "81-99 yrs" := by
  refine ⟨?_, by decide, by decide, by decide, by decide⟩
  unfold lease_bucket
  split_ifs <;> simp_all <;> omega

/-- Witness for `lease_bucket_piecewise` at remaining_lease_years = 61. -/
theorem lease_bucket_piecewise_witness :
    (0 : ℤ) ≤ 61 ∧
    (((lease_bucket 61 = "0-60 yrs" ↔ (61 : ℤ) ≤ 60) ∧
      (lease_bucket 61 = "61-80 yrs" ↔ 61 ≤ (61 : ℤ) ∧ (61 : ℤ) ≤ 80) ∧
      (lease_bucket 61 = "81-99 yrs" ↔ 81 ≤ (61 : ℤ))) ∧
     lease_bucket 60 = "0-60 yrs" ∧ lease_bucket 61 = "61-80 yrs" ∧
     lease_bucket 80 = "61-80 yrs" ∧ lease_bucket 81 = "81-99 yrs") :=
  ⟨by norm_num, lease_bucket_piecewise 61 (by norm_num)⟩

/-- The grid `chainEdges a k` lists `a + 10*i` for `i = 0, ..., k`. -/
theorem chainEdges_eq_range_map (k : ℕ) : ∀ a : ℤ,
    chainEdges a k = (List.range (k+1)).map fun i : ℕ => a + 10 * (i:ℤ) := by
  induction k with
  | zero =>
    intro a
    simp only [chainEdges, List.range_succ, List.range_zero, List.map_cons,
      List.map_nil, List.nil_append, Nat.cast_zero, mul_zero, add_zero]
  | succ m ih =>
    intro a
    rw [show chainEdges a (m+1) = a :: chainEdges (a+10) m from rfl, ih (a+10)]
    have hr : (List.range (m+1+1)).map (fun i : ℕ => a + 10 * (i:ℤ))
        = a :: (List.range (m+1)).map fun i : ℕ => (a+10) + 10 * (i:ℤ) := by
      rw [List.range_succ_eq_map]
      simp only [List.map_cons, Nat.cast_zero, mul_zero, add_zero, List.map_map]
      congr 1
      apply List.map_congr_left
      intro i _
      simp only [Function.comp_apply]
      push_cast
      ring
    rw [hr]

/-- A grid list always starts with its base edge. -/
theorem chainEdges_cons (a : ℤ) (k : ℕ) : ∃ t, chainEdges a k = a :: t := by
  cases k <;> exact ⟨_, rfl⟩

/-- `cutAssign` over the grid `a, a+10, ..., a+10k` assigns a bin exactly to
the values in `(a, a+10k]`. -/
theorem cutAssign_chainEdges_isSome (x : ℚ) : ∀ (k : ℕ) (a : ℤ),
    (cutAssign (chainEdges a k) x).isSome ↔ (a:ℚ) < x ∧ x ≤ (a:ℚ) + 10 * (k:ℚ) := by
  intro k
  induction k with
  | zero =>
    intro a
    simp [chainEdges, cutAssign]
  | succ m ih =>
    intro a
    obtain ⟨t, ht⟩ := chainEdges_cons (a+10) m
    rw [show chainEdges a (m+1) = a :: chainEdges (a+10) m from rfl, ht]
    simp only [cutAssign]
    split_ifs with hc
    · simp only [Option.isSome_some, true_iff]
      push_cast at hc
      have hm : (0:ℚ) ≤ (m:ℚ) := by positivity
      push_cast
      exact ⟨hc.1, by linarith [hc.2]⟩
    · rw [← ht, ih (a+10)]
      push_cast at hc ⊢
      constructor
      · rintro ⟨h1, h2⟩
        exact ⟨by linarith, by linarith⟩
      · rintro ⟨h1, h2⟩
        rcases not_and_or.mp hc with h3 | h3
        · exact absurd h1 h3
        · push_neg at h3
          exact ⟨by linarith, by linarith⟩

/-- A bin assigned over the grid `a, a+10, ..., a+10k` has width 10, lies on
the grid, and contains the value in its left-open right-closed interval. -/
theorem cutAssign_chainEdges_some (x : ℚ) : ∀ (k : ℕ) (a p q : ℤ),
    cutAssign (chainEdges a k) x = some (p, q) →
    q = p + 10 ∧ (∃ j : ℕ, p = a + 10 * (j:ℤ)) ∧ (p:ℚ) < x ∧ x ≤ (q:ℚ) := by
  intro k
  induction k with
  | zero => intro a p q h; simp [chainEdges, cutAssign] at h
  | succ m ih =>
    intro a p q h
    obtain ⟨t, ht⟩ := chainEdges_cons (a+10) m
    rw [show chainEdges a (m+1) = a :: chainEdges (a+10) m from rfl, ht] at h
    simp only [cutAssign] at h
    split_ifs at h with hc
    · obtain ⟨rfl, rfl⟩ : a = p ∧ a + 10 = q := by simpa using h
      refine ⟨rfl, ⟨0, by push_cast; ring⟩, hc.1, ?_⟩
      exact_mod_cast hc.2
    · rw [← ht] at h
      obtain ⟨h1, ⟨j, hj⟩, h3, h4⟩ := ih (a+10) p q h
      exact ⟨h1, ⟨j+1, by push_cast [hj]; ring⟩, h3, h4⟩

/-- For a non-empty subset with positive areas, the bin edges are the grid
starting at `⌊min⌋` with `numIntervals + 1` edges. -/
theorem floor_bins_eq_chainEdges (mn mx : ℚ) (h0 : 0 < mn) (h : mn ≤ mx) :
    floor_bins mn mx = chainEdges (pyInt mn) (numIntervals mn mx) := by
  have hmn : pyInt mn = ⌊mn⌋ := by simp [pyInt, le_of_lt h0]
  have hmx : pyInt mx = ⌊mx⌋ := by simp [pyInt, le_of_lt (lt_of_lt_of_le h0 h)]
  have hfl : ⌊mn⌋ ≤ ⌊mx⌋ := Int.floor_le_floor h
  simp only [floor_bins, pythonRange, numIntervals, hmn, hmx, chainEdges_eq_range_map]
  congr 2
  omega

/-- C6 counterexample: with subset areas {60, 65} the row attaining the
minimum (60, equal to the lowest edge) receives no floor_bin, and with areas
{60, 70.5} the row attaining the maximum (70.5, beyond the last edge 70)
receives no floor_bin. -/
theorem floor_bin_min_max_unassigned :
    floor_bin 60 65 60 = none ∧ floor_bin 60 (141/2) (141/2) = none := by
  constructor <;> norm_num [floor_bin, floor_bins, pyInt, pythonRange, cutAssign]

/-- C6 amended: for a subset with `0 < min ≤ max`, a floor area receives a
bin iff it lies in `(⌊min⌋, ⌊min⌋ + 10 * numIntervals]`; every assigned bin
is a left-open right-closed width-10 interval on the grid starting at
`⌊min⌋` and contains the value.  In particular a row whose area equals
`⌊min⌋` (e.g. an integer-valued minimum) gets no bin, and the maximum gets
no bin when it exceeds the last edge (see `floor_bin_min_max_unassigned`). -/
theorem floor_bin_characterization (mn mx x : ℚ) (h0 : 0 < mn) (h : mn ≤ mx) :
    ((floor_bin mn mx x).isSome ↔
      (⌊mn⌋ : ℚ) < x ∧ x ≤ (⌊mn⌋ : ℚ) + 10 * (numIntervals mn mx : ℚ)) ∧
    (∀ p q : ℤ, floor_bin mn mx x = some (p, q) →
      q = p + 10 ∧ (∃ j : ℕ, p = ⌊mn⌋ + 10 * (j:ℤ)) ∧ (p:ℚ) < x ∧ x ≤ (q:ℚ)) := by
  have hmn : pyInt mn = ⌊mn⌋ := by simp [pyInt, le_of_lt h0]
  have hb := floor_bins_eq_chainEdges mn mx h0 h
  rw [hmn] at hb
  constructor
  · rw [floor_bin, hb, cutAssign_chainEdges_isSome]
  · intro p q hpq
    rw [floor_bin, hb] at hpq
    exact cutAssign_chainEdges_some x _ _ p q hpq

/-- Witness for `floor_bin_characterization` at min 60, max 65, value 63. -/
theorem floor_bin_characterization_witness :
    ((0:ℚ) < 60 ∧ (60:ℚ) ≤ 65) ∧
    (((floor_bin 60 65 63).isSome ↔
      (⌊(60:ℚ)⌋ : ℚ) < 63 ∧ (63:ℚ) ≤ (⌊(60:ℚ)⌋ : ℚ) + 10 * (numIntervals 60 65 : ℚ)) ∧
    (∀ p q : ℤ, floor_bin 60 65 63 = some (p, q) →
      q = p + 10 ∧ (∃ j : ℕ, p = ⌊(60:ℚ)⌋ + 10 * (j:ℤ)) ∧ (p:ℚ) < 63 ∧ (63:ℚ) ≤ (q:ℚ))) :=
  ⟨⟨by norm_num, by norm_num⟩, floor_bin_characterization 60 65 63 (by norm_num) (by norm_num)⟩

/-- C7: the floor-bin step is not a no-op on an empty subset — pandas gives
NaN for the min/max of an empty series and `int(NaN)` raises a ValueError,
so the dashboard crashes instead of reporting "no data"; on a non-empty
subset (e.g. areas {60, 65}) it produces the edges normally. -/
theorem floor_bins_step_empty_raises :
    floor_bins_step [] = Except.error "ValueError: cannot convert float NaN to integer" ∧
    floor_bins_step [60, 65] = Except.ok [60, 70] := by
  constructor
  · rfl
  · have h1 : ([60, 65] : List ℚ).min? = some 60 := by norm_num [List.min?, min_def]
    have h2 : ([60, 65] : List ℚ).max? = some 65 := by norm_num [List.max?, max_def]
    rw [floor_bins_step, h1, h2]
    norm_num [floor_bins, pyInt, pythonRange]
    decide

/-- C8 counterexample: a record with `floor_area_sqm = 0` is not rejected by
the loader — it is loaded with a fabricated `price_per_sqm` (pandas: `inf`;
`ℚ` model: 0) — whereas the validating loader the spec describes rejects
it. -/
theorem load_record_accepts_zero_area :
    load_record rawZeroArea = some ⟨10, 0, 0, 61, 500000⟩ ∧
    load_record_spec rawZeroArea = none := by
  have hs : extractNat "10 TO 12" = some 10 := by decide
  have hl : extractNat "61 years 04 months" = some 61 := by decide
  constructor
  · simp only [load_record, rawZeroArea]
    rw [hs, hl]
    norm_num
  · simp [load_record_spec, rawZeroArea]

/-- C8 amended: the loader computes
`price_per_sqm = resale_price / floor_area_sqm` unconditionally, carrying
the raw area through without any `floor_area_sqm > 0` validation (so a
zero-area record is not rejected, see `load_record_accepts_zero_area`). -/
theorem load_record_divides_unconditionally (r : RawRecord) (rec : Row)
    (h : load_record r = some rec) :
    rec.floor_area_sqm = r.floor_area_sqm ∧
    rec.price_per_sqm = r.resale_price / r.floor_area_sqm := by
  unfold load_record at h
  split at h
  · obtain rfl := Option.some.inj h
    exact ⟨rfl, rfl⟩
  · exact absurd h (by simp)

/-- Witness for `load_record_divides_unconditionally` at a concrete
record. -/
theorem load_record_divides_unconditionally_witness :
    load_record rawSample = some ⟨10, 100, 5000, 61, 500000⟩ ∧
    ((⟨10, 100, 5000, 61, 500000⟩ : Row).floor_area_sqm = rawSample.floor_area_sqm ∧
     (⟨10, 100, 5000, 61, 500000⟩ : Row).price_per_sqm
        = rawSample.resale_price / rawSample.floor_area_sqm) := by
  have hload : load_record rawSample = some ⟨10, 100, 5000, 61, 500000⟩ := by
    have hs : extractNat "10 TO 12" = some 10 := by decide
    have hl : extractNat "61 years 04 months" = some 61 := by decide
    simp only [load_record, rawSample]
    rw [hs, hl]
    norm_num
  exact ⟨hload, load_record_divides_unconditionally rawSample _ hload⟩

/-- C9: the boundary/example values format as documented
(`$1.00M`, `$1.23M`, `$456k`); every value ≥ 1,000,000 produces a
millions string and every smaller value a thousands string; and formatting
is applied to the rows after ranking, leaving the ranked row sequence
unchanged. -/
theorem format_price_correct :
    format_price 1000000 = "$1.00M" ∧
    format_price 1230000 = "$1.23M" ∧
    format_price 456000 = "$456k" ∧
    (∀ v : ℚ, (1000000 ≤ v → ∃ s, format_price v = "$" ++ s ++ "M") ∧
              (v < 1000000 → ∃ s, format_price v = "$" ++ s ++ "k")) ∧
    (∀ (key : Row → ℚ) (l : List Row),
      (top20_display key l).map Prod.fst = top20 key l) := by
  refine ⟨?_, ?_, ?_, ?_, ?_⟩
  · have hq : ((1000000:ℚ) / 1000000) = 1 := by norm_num
    have hr : round_half_even ((1:ℚ) * 100) = 100 := by
      norm_num [round_half_even]
    rw [format_price, if_pos (by norm_num), hq, twoDecimals]
    rw [hr]
    rfl
  · have hq : ((1230000:ℚ) / 1000000) = 123/100 := by norm_num
    have hr : round_half_even ((123/100:ℚ) * 100) = 123 := by
      norm_num [round_half_even]
    rw [format_price, if_pos (by norm_num), hq, twoDecimals]
    rw [hr]
    rfl
  · have hq : ((456000:ℚ) / 1000) = 456 := by norm_num
    have hr : round_half_even (456:ℚ) = 456 := by
      norm_num [round_half_even]
    rw [format_price, if_neg (by norm_num), hq, zeroDecimals]
    rw [hr]
    rfl
  · intro v
    constructor
    · intro h
      exact ⟨twoDecimals (v / 1000000), by rw [format_price, if_pos h]⟩
    · intro h
      exact ⟨zeroDecimals (v / 1000), by rw [format_price, if_neg (not_le.2 h)]⟩
  · intro key l
    simp [top20_display, Function.comp_def]

/-- Witness for `format_price_correct` at the concrete value 2,500,000. -/
theorem format_price_correct_witness :
    (1000000 ≤ (2500000:ℚ)) ∧ (∃ s, format_price 2500000 = "$" ++ s ++ "M") :=
  ⟨by norm_num, (format_price_correct.2.2.2.1 2500000).1 (by norm_num)⟩

/-- C10: a row with lease in [60, 80), floor below 10, area not above the
subset median and price per sqm at or above the (positive) subset median
gets an empty rationale while its score is at most 40 (the −10 lease
penalty and the proportional over-median price penalty have no rationale
entries), so an empty rationale does not imply a neutral score of 50. -/
theorem empty_rationale_low_score (medA medP : ℚ) (r : Row)
    (h1 : 60 ≤ r.remaining_lease_years) (h2 : r.remaining_lease_years < 80)
    (h3 : r.storey_floor < 10) (h4 : r.floor_area_sqm ≤ medA)
    (h5 : medP ≤ r.price_per_sqm) (h6 : 0 < medP) :
    explain_score medA medP r = "" ∧ calculate_value_score medA medP r ≤ 40 := by
  have c1 : ¬(r.storey_floor > 20) := by omega
  have c2 : ¬(r.storey_floor ≥ 10) := by omega
  have c3 : ¬(r.floor_area_sqm > medA) := not_lt.2 h4
  have c4 : ¬(r.price_per_sqm < medP) := not_lt.2 h5
  have c5 : ¬(r.remaining_lease_years < 60) := by omega
  constructor
  · simp only [explain_score, if_neg c1, if_neg c2, if_neg c3, if_neg c4, if_neg c5]
    rfl
  · simp only [calculate_value_score, if_neg c1, if_neg c2, if_neg c3, if_neg c4,
      if_neg c5, if_pos h2]
    have ht : 0 ≤ (r.price_per_sqm - medP) / medP :=
      div_nonneg (by linarith) h6.le
    apply max_le
    · exact le_trans (min_le_left _ _) (by linarith)
    · norm_num

/-- Witness for `empty_rationale_low_score` at `rowLowQuiet` with medians
90 and 5000. -/
theorem empty_rationale_low_score_witness :
    (60 ≤ rowLowQuiet.remaining_lease_years ∧ rowLowQuiet.remaining_lease_years < 80 ∧
     rowLowQuiet.storey_floor < 10 ∧ rowLowQuiet.floor_area_sqm ≤ 90 ∧
     (5000:ℚ) ≤ rowLowQuiet.price_per_sqm ∧ (0:ℚ) < 5000) ∧
    (explain_score 90 5000 rowLowQuiet = "" ∧
     calculate_value_score 90 5000 rowLowQuiet ≤ 40) :=
  ⟨⟨by norm_num [rowLowQuiet], by norm_num [rowLowQuiet], by norm_num [rowLowQuiet],
    by norm_num [rowLowQuiet], by norm_num [rowLowQuiet], by norm_num⟩,
   empty_rationale_low_score 90 5000 rowLowQuiet
     (by norm_num [rowLowQuiet]) (by norm_num [rowLowQuiet]) (by norm_num [rowLowQuiet])
     (by norm_num [rowLowQuiet]) (by norm_num [rowLowQuiet]) (by norm_num)⟩
